import Mathlib

/-!
Shallow embedding of `auth_functional.py` (django-auth-functional):
guard decorators (`authentication`, `authorization`), predicate
combinators (`or_`, `and_`, `not_`), argument normalization
(`cleaned_args`), and the request-scoped fixture cache subsystem
(`Fixtures`, `FixtureAccessor`, `DictCacheDescriptor`,
`RequestFixtureMiddleware`).

Positional arguments are modelled by `Arg` (a request object or an
opaque non-request value); keyword arguments are an association list
passed through unchanged, as in the source.  Exceptions are modelled
with `Except PyErr`.
-/

set_option autoImplicit false

namespace AuthFunctional

/-- A positional argument: either a Django `HttpRequest` (identified by a
number) or any non-request value (e.g. `self` of a class-based view, or a
URL-resolved value). -/
inductive Arg where
  | request (id : Nat)
  | value (v : Nat)
deriving DecidableEq, Repr

/-- Keyword arguments `**kwargs`: passed through unchanged everywhere. -/
abbrev Kwargs := List (String × Arg)

/-- `isinstance(x, HttpRequest)`. -/
def isHttpRequest : Arg → Bool
  | .request _ => true
  | .value _ => false

/-- Embeds `cleaned_args`: if `args` is nonempty and `args[0]` is NOT an
`HttpRequest`, return `args[1:]`; otherwise return `args` unchanged. -/
def cleaned_args (args : List Arg) : List Arg :=
  match args with
  | a :: rest => if !isHttpRequest a then rest else a :: rest
  | [] => []

/-- A condition / authenticator: called with the (cleaned) positional
arguments and the keyword arguments, returns a boolean. -/
abbrev Pred := List Arg → Kwargs → Bool

/-- A Django `HttpResponse`: a status code, mutable headers, and a `tag`
distinguishing otherwise identical response objects (body/content). -/
structure HttpResponse where
  status_code : Nat
  headers : List (String × String)
  tag : Nat
deriving DecidableEq, Repr

/-- `response[header] = value`: set (overwrite) a header. -/
def HttpResponse.setHeader (r : HttpResponse) (k v : String) : HttpResponse :=
  { r with headers := (k, v) :: r.headers.filter (fun p => p.1 != k) }

/-- A view handler or a response factory: receives the original
(unstripped) args and kwargs, returns a response. -/
abbrev Handler := List Arg → Kwargs → HttpResponse

/-- `class Unauthorized(HttpResponse): status_code = 401` — a fresh
instance, as built by `unauthorized_response`. -/
def Unauthorized : HttpResponse := { status_code := 401, headers := [], tag := 0 }

/-- `unauthorized_response(*args, **kwargs)`: ignores its arguments and
returns a fresh `Unauthorized()`. -/
def unauthorized_response : Handler := fun _ _ => Unauthorized

/-- `class Forbidden(HttpResponse): status_code = 403`. -/
def Forbidden : HttpResponse := { status_code := 403, headers := [], tag := 0 }

/-- `forbidden_response(*args, **kwargs)`: a fresh `Forbidden()`. -/
def forbidden_response : Handler := fun _ _ => Forbidden

/-- `DEFAULT_AUTHENTICATOR(*args, **kwargs) = not django_login_required(...)`.
The external `django.contrib.auth.decorators.login_required` is a boundary
collaborator; `dlr` is the truthiness of its return value. -/
def DEFAULT_AUTHENTICATOR (dlr : Pred) : Pred :=
  fun args kwargs => !dlr args kwargs

/-- The two lines
`response = response_factory(*args, **kwargs); if www_authenticate is not
None: response["WWW-Authenticate"] = www_authenticate`. -/
def applyChallenge (www_authenticate : Option String) (response : HttpResponse) :
    HttpResponse :=
  match www_authenticate with
  | some h => response.setHeader "WWW-Authenticate" h
  | none => response

/-- The inner `decorator(*args, **kwargs)` of `authentication`'s `wrapper`:
call `authenticator(*cleaned_args(args), **kwargs)`; on success delegate to
the view with the ORIGINAL args; on failure build the failure response
from the ORIGINAL args and attach the challenge header if configured. -/
def authWrapper (authenticator : Pred) (www_authenticate : Option String)
    (response_factory : Handler) (view : Handler) : Handler :=
  fun args kwargs =>
    if authenticator (cleaned_args args) kwargs then view args kwargs
    else applyChallenge www_authenticate (response_factory args kwargs)

/-- `authentication(...)` returns either the decorated view (when `view`
was supplied) or the decorator `wrapper` itself (when `view is None`). -/
inductive AuthenticationResult where
  | decorated (h : Handler)
  | factory (w : Handler → Handler)

/-- Embeds `authentication(view, authenticator, www_authenticate,
response_factory)`: defaults the authenticator and response factory, then
either applies `wrapper` to `view` immediately or returns `wrapper`. -/
def authentication (dlr : Pred) (view : Option Handler) (authenticator : Option Pred)
    (www_authenticate : Option String) (response_factory : Option Handler) :
    AuthenticationResult :=
  let authenticator := authenticator.getD (DEFAULT_AUTHENTICATOR dlr)
  let response_factory := response_factory.getD unauthorized_response
  match view with
  | some v => .decorated (authWrapper authenticator www_authenticate response_factory v)
  | none => .factory (authWrapper authenticator www_authenticate response_factory)

/-- Call the result of the direct-decorator form `authentication(view=h, ...)`. -/
def applyDirect (res : AuthenticationResult) (args : List Arg) (kwargs : Kwargs) :
    Option HttpResponse :=
  match res with
  | .decorated g => some (g args kwargs)
  | .factory _ => none

/-- Call the result of the factory form `authentication(...)(h)`. -/
def applyFactory (res : AuthenticationResult) (h : Handler) (args : List Arg)
    (kwargs : Kwargs) : Option HttpResponse :=
  match res with
  | .decorated _ => none
  | .factory w => some (w h args kwargs)

/-- Embeds `authorization(condition, response_factory)` applied to a view:
call `condition(*cleaned_args(args), **kwargs)`; true delegates to the
view; false returns `response_factory(*args, **kwargs)` untouched. -/
def authorization (condition : Pred) (response_factory : Option Handler)
    (view : Handler) : Handler :=
  let response_factory := response_factory.getD forbidden_response
  fun args kwargs =>
    if condition (cleaned_args args) kwargs then view args kwargs
    else response_factory args kwargs

/-- Embeds `or_(*conditions)`: `any(condition(*cleaned_args(args), **kwargs)
for condition in conditions)`. -/
def or_ (conditions : List Pred) : Pred :=
  fun args kwargs => conditions.any (fun condition => condition (cleaned_args args) kwargs)

/-- Embeds `and_(*conditions)`: `all(...)`. -/
def and_ (conditions : List Pred) : Pred :=
  fun args kwargs => conditions.all (fun condition => condition (cleaned_args args) kwargs)

/-- Embeds `not_(condition)`. -/
def not_ (condition : Pred) : Pred :=
  fun args kwargs => !condition (cleaned_args args) kwargs

/-- Instrumented left-to-right evaluation of `any(...)` over an already
cleaned argument list: returns the boolean result together with how many
conditions were invoked (Python's `any` over a generator stops at the
first true element). -/
def orCalls : List Pred → List Arg → Kwargs → Bool × Nat
  | [], _, _ => (false, 0)
  | c :: cs, args, kwargs =>
    if c args kwargs then (true, 1)
    else
      let r := orCalls cs args kwargs
      (r.1, r.2 + 1)

/-- Instrumented left-to-right evaluation of `all(...)`: stops at the
first false element. -/
def andCalls : List Pred → List Arg → Kwargs → Bool × Nat
  | [], _, _ => (true, 0)
  | c :: cs, args, kwargs =>
    if c args kwargs then
      let r := andCalls cs args kwargs
      (r.1, r.2 + 1)
    else (false, 1)

theorem orCalls_fst (ps : List Pred) (args : List Arg) (kwargs : Kwargs) :
    (orCalls ps args kwargs).1 = ps.any (fun c => c args kwargs) := by
  induction ps with
  | nil => rfl
  | cons c cs ih =>
    by_cases h : c args kwargs <;> simp [orCalls, h, ih]

theorem andCalls_fst (ps : List Pred) (args : List Arg) (kwargs : Kwargs) :
    (andCalls ps args kwargs).1 = ps.all (fun c => c args kwargs) := by
  induction ps with
  | nil => rfl
  | cons c cs ih =>
    by_cases h : c args kwargs <;> simp [andCalls, h, ih]

theorem orCalls_snd (ps : List Pred) (args : List Arg) (kwargs : Kwargs) :
    (orCalls ps args kwargs).2 =
      min (ps.findIdx (fun c => c args kwargs) + 1) ps.length := by
  induction ps with
  | nil => rfl
  | cons c cs ih =>
    by_cases h : c args kwargs
    · simp [orCalls, h, List.findIdx_cons]
    · simp only [orCalls, h, List.findIdx_cons, Bool.false_eq_true, if_false, ih,
        List.length_cons, cond_false]
      clear h
      generalize List.findIdx (fun c => c args kwargs) cs = k at ih ⊢
      clear ih
      omega

theorem andCalls_snd (ps : List Pred) (args : List Arg) (kwargs : Kwargs) :
    (andCalls ps args kwargs).2 =
      min (ps.findIdx (fun c => !c args kwargs) + 1) ps.length := by
  induction ps with
  | nil => rfl
  | cons c cs ih =>
    by_cases h : c args kwargs
    · simp only [andCalls, h, if_true, List.findIdx_cons, Bool.not_true, ih,
        List.length_cons, cond_false]
      clear h
      generalize List.findIdx (fun c => !c args kwargs) cs = k at ih ⊢
      clear ih
      omega
    · simp [andCalls, h, List.findIdx_cons]

/-! ### Fixture registry, request-scoped cache and accessor -/

/-- A fixture value. -/
abbrev Value := Nat

/-- A Python exception, as propagated by the fixture subsystem. -/
inductive PyErr where
  | attributeError (msg : String)
  | typeError (msg : String)
  | raised (msg : String)
deriving DecidableEq, Repr

/-- A fixture factory: called with the URL-resolved positional and keyword
arguments; may raise (`Except.error`). -/
abbrev Factory := List Arg → Kwargs → Except PyErr Value

/-- The request-scoped cache dict: fixture name to computed value.  First
binding wins on lookup, matching dict semantics for the insertions
performed here (a name is only inserted when absent). -/
abbrev Cache := List (String × Value)

/-- Embeds `class Fixtures`: the process-wide registry `self._register`. -/
structure Fixtures where
  _register : List (String × Factory)

/-- `Fixtures.register(name, f)`: insert/overwrite. -/
def Fixtures.register (self : Fixtures) (name : String) (f : Factory) : Fixtures :=
  ⟨(name, f) :: self._register.filter (fun p => p.1 != name)⟩

/-- `Fixtures.get(name, default=None)`: total lookup with default. -/
def Fixtures.get (self : Fixtures) (name : String) (default : Option Factory) :
    Option Factory :=
  match self._register.lookup name with
  | some f => some f
  | none => default

/-- `Fixtures.__getattr__(name)`: raises `AttributeError` (the
`UnknownFixture` error kind) when `name` is not registered. -/
def Fixtures.getattr (self : Fixtures) (name : String) : Except PyErr Factory :=
  match self._register.lookup name with
  | some f => .ok f
  | none => .error (.attributeError name)

/-- Outcome of one `FixtureAccessor.__getattr__` call: the returned value
or propagated exception, the cache dict afterwards, and how many times the
factory was invoked during this call. -/
structure AccessResult where
  result : Except PyErr Value
  cache : Cache
  calls : Nat
deriving Repr

/-- Embeds `FixtureAccessor.__getattr__(name)`: cached names are returned
from the cache; otherwise `self.fixtures.get(name)` is called (yielding
`None` — hence a `TypeError` at the call site — when unregistered), the
factory is invoked with the URL-resolved arguments (`vargs`, `vkwargs`,
modelled as already resolved), and the result is stored in the cache.  A
raising factory propagates before the cache store executes. -/
def FixtureAccessor.getattr (reg : Fixtures) (cache : Cache) (vargs : List Arg)
    (vkwargs : Kwargs) (name : String) : AccessResult :=
  match cache.lookup name with
  | some v => ⟨.ok v, cache, 0⟩
  | none =>
    match reg.get name none with
    | none => ⟨.error (.typeError "NoneType object is not callable"), cache, 0⟩
    | some f =>
      match f vargs vkwargs with
      | .error e => ⟨.error e, cache, 1⟩
      | .ok v => ⟨.ok v, (name, v) :: cache, 1⟩

/-- The state shared through `type(request)`: the dict held by the
`DictCacheDescriptor` currently installed on the request CLASS.  The
middleware assigns descriptors to `type(request)`, not to the instance, so
every request of that class reads the same current descriptor. -/
structure TypeState where
  cache : Cache
deriving DecidableEq, Repr

/-- A request instance, identified by a number. -/
abbrev Req := Nat

/-- Embeds `RequestFixtureMiddleware.process_request`: installs a fresh
`DictCacheDescriptor()` (empty dict) on `type(request)` — replacing, for
every request of the class, whatever descriptor was there. -/
def RequestFixtureMiddleware.process_request (_ts : TypeState) (_request : Req) :
    TypeState :=
  ⟨[]⟩

/-- Embeds `DictCacheDescriptor.__get__`: returns `self.cache`, ignoring
which request instance the attribute was read from. -/
def DictCacheDescriptor.get (ts : TypeState) (_request : Req) : Cache :=
  ts.cache

/-- `request.fixtures.<name>` for a request of the patched class: builds
the `FixtureAccessor` over the request's `cache` attribute (the dict of
the descriptor currently on the class), performs the access, and reflects
the in-place dict mutation back into the shared type state. -/
def accessFixtureOn (reg : Fixtures) (ts : TypeState) (request : Req)
    (vargs : List Arg) (vkwargs : Kwargs) (name : String) :
    AccessResult × TypeState :=
  let a := FixtureAccessor.getattr reg (DictCacheDescriptor.get ts request)
    vargs vkwargs name
  (a, ⟨a.cache⟩)

/-- Does this accessor outcome carry the `UnknownFixture` (AttributeError)
error kind? -/
def isUnknownFixtureError : Except PyErr Value → Bool
  | .error (.attributeError _) => true
  | _ => false

/-! ### Claim theorems -/

/-- C1: accessing a registered fixture twice on one request invokes its
factory exactly once — the first (uncached) access calls the factory once
and stores the value; any access that finds the name in the cache returns
the stored value with zero factory calls and leaves the cache unchanged;
in particular the second access returns the first access's value. -/
theorem C1_fixture_memoization (reg : Fixtures) (cache : Cache) (vargs : List Arg)
    (vkwargs : Kwargs) (n : String) (f : Factory) (v : Value)
    (hn : cache.lookup n = none)
    (hf : reg.get n none = some f)
    (hv : f vargs vkwargs = .ok v) :
    (FixtureAccessor.getattr reg cache vargs vkwargs n).result = .ok v ∧
    (FixtureAccessor.getattr reg cache vargs vkwargs n).calls = 1 ∧
    (FixtureAccessor.getattr reg cache vargs vkwargs n).cache = (n, v) :: cache ∧
    (∀ (c : Cache) (w : Value), c.lookup n = some w →
      FixtureAccessor.getattr reg c vargs vkwargs n = ⟨.ok w, c, 0⟩) ∧
    FixtureAccessor.getattr reg
        ((FixtureAccessor.getattr reg cache vargs vkwargs n).cache) vargs vkwargs n =
      ⟨.ok v, (n, v) :: cache, 0⟩ := by
  refine ⟨?_, ?_, ?_, ?_, ?_⟩ <;>
    simp [FixtureAccessor.getattr, hn, hf, hv, List.lookup]
  intro c w hw
  simp [FixtureAccessor.getattr, hw]

theorem C1_fixture_memoization_witness :
    (FixtureAccessor.getattr ⟨[("u", fun _ _ => Except.ok 7)]⟩ [] [] [] "u").result =
      Except.ok 7 ∧
    (FixtureAccessor.getattr ⟨[("u", fun _ _ => Except.ok 7)]⟩ [] [] [] "u").calls = 1 ∧
    FixtureAccessor.getattr ⟨[("u", fun _ _ => Except.ok 7)]⟩ [("u", 7)] [] [] "u" =
      ⟨Except.ok 7, [("u", 7)], 0⟩ := by
  have h := C1_fixture_memoization ⟨[("u", fun _ _ => Except.ok 7)]⟩ [] [] [] "u"
    (fun _ _ => Except.ok 7) 7 rfl rfl rfl
  exact ⟨h.1, h.2.1, h.2.2.2.1 [("u", 7)] 7 rfl⟩

/-- C2 counterexample: the claim says a leading argument that IS the
framework's request type is stripped; the code (`cleaned_args`) keeps the
argument list unchanged in exactly that case. -/
theorem C2_counterexample :
    isHttpRequest (Arg.request 0) = true ∧
    cleaned_args [Arg.request 0, Arg.value 1] = [Arg.request 0, Arg.value 1] ∧
    cleaned_args [Arg.request 0, Arg.value 1] ≠ [Arg.value 1] := by
  refine ⟨rfl, rfl, ?_⟩
  decide

/-- C2 (amended): `cleaned_args` strips the leading positional argument
exactly when the argument list is nonempty and its first element is NOT
recognized as the framework's request type (the bound-method `self` case);
when the first argument IS a request, or the list is empty, all positional
arguments are forwarded unchanged. -/
theorem C2_cleaned_args_stripping (args : List Arg) :
    (args = [] → cleaned_args args = args) ∧
    (∀ (a : Arg) (rest : List Arg), args = a :: rest → isHttpRequest a = false →
      cleaned_args args = rest) ∧
    (∀ (a : Arg) (rest : List Arg), args = a :: rest → isHttpRequest a = true →
      cleaned_args args = args) := by
  refine ⟨?_, ?_, ?_⟩
  · intro h; subst h; rfl
  · intro a rest h ha; subst h; simp [cleaned_args, ha]
  · intro a rest h ha; subst h; simp [cleaned_args, ha]

theorem C2_cleaned_args_stripping_witness :
    cleaned_args [Arg.value 5, Arg.request 0] = [Arg.request 0] ∧
    cleaned_args [Arg.request 0, Arg.value 1] = [Arg.request 0, Arg.value 1] ∧
    cleaned_args ([] : List Arg) = [] := by
  refine ⟨?_, ?_, ?_⟩
  · exact (C2_cleaned_args_stripping [Arg.value 5, Arg.request 0]).2.1 _ _ rfl rfl
  · exact (C2_cleaned_args_stripping [Arg.request 0, Arg.value 1]).2.2 _ _ rfl rfl
  · exact (C2_cleaned_args_stripping []).1 rfl

/-- C3 counterexample: accessing an unregistered, uncached fixture name
through the accessor does NOT fail with the `UnknownFixture`
(AttributeError) error kind — `Fixtures.get` returns `None` and calling it
raises a `TypeError`. -/
theorem C3_counterexample :
    (FixtureAccessor.getattr ⟨[]⟩ [] [] [] "missing").result =
      .error (.typeError "NoneType object is not callable") ∧
    isUnknownFixtureError (FixtureAccessor.getattr ⟨[]⟩ [] [] [] "missing").result =
      false := by
  exact ⟨rfl, rfl⟩

/-- C3 (amended): for an unregistered and uncached fixture name, the
accessor fails with a `TypeError` (calling `None`), not with the
`UnknownFixture` error kind; attribute-style access on the registry itself
raises `AttributeError` (`UnknownFixture`); and the total
`Fixtures.get(name, default)` returns the default and never raises. -/
theorem C3_unknown_fixture (reg : Fixtures) (cache : Cache) (vargs : List Arg)
    (vkwargs : Kwargs) (n : String) (default : Option Factory)
    (hn : cache.lookup n = none)
    (hr : reg._register.lookup n = none) :
    FixtureAccessor.getattr reg cache vargs vkwargs n =
      ⟨.error (.typeError "NoneType object is not callable"), cache, 0⟩ ∧
    isUnknownFixtureError (FixtureAccessor.getattr reg cache vargs vkwargs n).result =
      false ∧
    reg.getattr n = .error (.attributeError n) ∧
    reg.get n default = default := by
  refine ⟨?_, ?_, ?_, ?_⟩ <;>
    simp [FixtureAccessor.getattr, Fixtures.get, Fixtures.getattr, hn, hr,
      isUnknownFixtureError]

theorem C3_unknown_fixture_witness :
    FixtureAccessor.getattr ⟨[]⟩ [] [] [] "m" =
      ⟨.error (.typeError "NoneType object is not callable"), [], 0⟩ ∧
    Fixtures.getattr ⟨[]⟩ "m" = .error (.attributeError "m") ∧
    Fixtures.get ⟨[]⟩ "m" none = none := by
  have h := C3_unknown_fixture ⟨[]⟩ [] [] [] "m" none rfl rfl
  exact ⟨h.1, h.2.2.1, h.2.2.2⟩

/-- C4: isolation between requests fails on the code.  The middleware
installs the cache descriptor on `type(request)`, so two requests of the
same class that have both passed `process_request` share one cache dict:
after request 1 populates fixture "n" (one factory call), request 2's
access of "n" is a cache hit returning request 1's value with zero factory
calls.  The trace below evaluates the embedded code on that failing input
(requests 1 and 2, distinct). -/
theorem C4_isolation_violated :
    (1 : Req) ≠ (2 : Req) ∧
    (let reg : Fixtures := ⟨[("n", fun _ _ => Except.ok 42)]⟩
     let ts2 := RequestFixtureMiddleware.process_request
       (RequestFixtureMiddleware.process_request ⟨[]⟩ 1) 2
     let s3 := accessFixtureOn reg ts2 1 [] [] "n"
     let s4 := accessFixtureOn reg s3.2 2 [] [] "n"
     ts2.cache = [] ∧
     s3.1.result = Except.ok 42 ∧ s3.1.calls = 1 ∧
     s4.1.result = Except.ok 42 ∧ s4.1.calls = 0) := by
  exact ⟨by decide, rfl, rfl, rfl, rfl, rfl⟩

/-- C5: combinator semantics — `or_` is true iff some condition holds of
the request-stripped arguments, `and_` iff all do, `not_` negates, the
empty forms give `or_() = False` and `and_() = True`; and the instrumented
left-to-right evaluators agree with them while invoking conditions only up
to (and including) the first decisive one. -/
theorem C5_combinator_semantics (ps : List Pred) (p : Pred) (args : List Arg)
    (kwargs : Kwargs) :
    (or_ ps args kwargs = true ↔ ∃ q ∈ ps, q (cleaned_args args) kwargs = true) ∧
    (and_ ps args kwargs = true ↔ ∀ q ∈ ps, q (cleaned_args args) kwargs = true) ∧
    (not_ p args kwargs = !p (cleaned_args args) kwargs) ∧
    (or_ [] args kwargs = false) ∧
    (and_ [] args kwargs = true) ∧
    ((orCalls ps (cleaned_args args) kwargs).1 = or_ ps args kwargs) ∧
    ((orCalls ps (cleaned_args args) kwargs).2 =
      min (ps.findIdx (fun q => q (cleaned_args args) kwargs) + 1) ps.length) ∧
    ((andCalls ps (cleaned_args args) kwargs).1 = and_ ps args kwargs) ∧
    ((andCalls ps (cleaned_args args) kwargs).2 =
      min (ps.findIdx (fun q => !q (cleaned_args args) kwargs) + 1) ps.length) := by
  refine ⟨?_, ?_, rfl, rfl, rfl, ?_, ?_, ?_, ?_⟩
  · simp [or_]
  · simp [and_]
  · exact orCalls_fst ps (cleaned_args args) kwargs
  · exact orCalls_snd ps (cleaned_args args) kwargs
  · exact andCalls_fst ps (cleaned_args args) kwargs
  · exact andCalls_snd ps (cleaned_args args) kwargs

theorem C5_combinator_semantics_witness :
    or_ [fun _ _ => false, fun _ _ => true] [] [] = true ∧
    and_ [fun _ _ => false, fun _ _ => true] [] [] = false := by
  have h := C5_combinator_semantics [fun _ _ => false, fun _ _ => true]
    (fun _ _ => false) [] []
  refine ⟨h.1.mpr ⟨fun _ _ => true, by simp, rfl⟩, ?_⟩
  by_contra hc
  simp only [Bool.not_eq_false] at hc
  have := h.2.1.mp hc (fun _ _ => false) (by simp)
  simp at this

/-- C6: when the authenticator rejects, the wrapped view is not invoked —
the result is the factory-built failure response with the configured
`WWW-Authenticate` challenge attached (status 401 under the default
factory), the result is independent of the view, no challenge is attached
when `www_authenticate` is `None`, and on the success path the view's
response is returned unchanged (no header is attached there). -/
theorem C6_authentication_failure (authenticator : Pred) (rf : Handler)
    (view : Handler) (challenge : String) (args : List Arg) (kwargs : Kwargs)
    (hfail : authenticator (cleaned_args args) kwargs = false) :
    authWrapper authenticator (some challenge) rf view args kwargs =
      (rf args kwargs).setHeader "WWW-Authenticate" challenge ∧
    (∀ view' : Handler, authWrapper authenticator (some challenge) rf view' args kwargs =
      authWrapper authenticator (some challenge) rf view args kwargs) ∧
    (authWrapper authenticator (some challenge) unauthorized_response view args
        kwargs).status_code = 401 ∧
    (authWrapper authenticator (some challenge) unauthorized_response view args
        kwargs).headers.lookup "WWW-Authenticate" = some challenge ∧
    authWrapper authenticator none rf view args kwargs = rf args kwargs ∧
    (∀ (args' : List Arg) (kwargs' : Kwargs),
      authenticator (cleaned_args args') kwargs' = true →
      authWrapper authenticator (some challenge) rf view args' kwargs' =
        view args' kwargs') := by
  refine ⟨?_, ?_, ?_, ?_, ?_, ?_⟩
  · simp [authWrapper, applyChallenge, hfail]
  · intro view'; simp [authWrapper, hfail]
  · simp [authWrapper, applyChallenge, hfail, unauthorized_response, Unauthorized,
      HttpResponse.setHeader]
  · simp [authWrapper, applyChallenge, hfail, unauthorized_response, Unauthorized,
      HttpResponse.setHeader, List.lookup]
  · simp [authWrapper, applyChallenge, hfail]
  · intro args' kwargs' hpass; simp [authWrapper, hpass]

theorem C6_authentication_failure_witness :
    (authWrapper (fun _ _ => false) (some "Basic") unauthorized_response
      (fun _ _ => ⟨200, [], 1⟩) [Arg.request 0] []).status_code = 401 ∧
    (authWrapper (fun _ _ => false) (some "Basic") unauthorized_response
      (fun _ _ => ⟨200, [], 1⟩) [Arg.request 0] []).headers.lookup "WWW-Authenticate" =
      some "Basic" := by
  have h := C6_authentication_failure (fun _ _ => false) unauthorized_response
    (fun _ _ => ⟨200, [], 1⟩) "Basic" [Arg.request 0] [] rfl
  exact ⟨h.2.2.1, h.2.2.2.1⟩

/-- C7: when the condition rejects, `authorization` returns exactly the
response built by the supplied `response_factory`, unmodified, for every
view (the handler is not invoked); under the default factory the result is
a fresh `Forbidden` response with status 403 and no headers. -/
theorem C7_authorization_failure (condition : Pred) (rf : Handler) (view : Handler)
    (args : List Arg) (kwargs : Kwargs)
    (hfail : condition (cleaned_args args) kwargs = false) :
    authorization condition (some rf) view args kwargs = rf args kwargs ∧
    (∀ view' : Handler, authorization condition (some rf) view' args kwargs =
      rf args kwargs) ∧
    authorization condition none view args kwargs = Forbidden ∧
    Forbidden.status_code = 403 ∧ Forbidden.headers = [] := by
  refine ⟨?_, ?_, ?_, rfl, rfl⟩ <;>
    simp [authorization, hfail, forbidden_response]

theorem C7_authorization_failure_witness :
    authorization (fun _ _ => false)
        (some (fun _ _ => ⟨999, [("X-Sentinel", "yes")], 7⟩))
        (fun _ _ => ⟨200, [], 1⟩) [Arg.request 3] [] =
      ⟨999, [("X-Sentinel", "yes")], 7⟩ := by
  exact (C7_authorization_failure (fun _ _ => false)
    (fun _ _ => ⟨999, [("X-Sentinel", "yes")], 7⟩)
    (fun _ _ => ⟨200, [], 1⟩) [Arg.request 3] [] rfl).1

/-- C8: the direct-decorator form `authentication(view=h, ...)` and the
factory form `authentication(...)(h)` produce behaviorally identical
wrapped handlers — for every authenticator/challenge/response-factory
choice (including the defaults) and every call they return equal
results. -/
theorem C8_direct_vs_factory_equiv (dlr : Pred) (h : Handler)
    (authenticator : Option Pred) (www_authenticate : Option String)
    (response_factory : Option Handler) (args : List Arg) (kwargs : Kwargs) :
    applyDirect (authentication dlr (some h) authenticator www_authenticate
      response_factory) args kwargs =
    applyFactory (authentication dlr none authenticator www_authenticate
      response_factory) h args kwargs := by
  rfl

/-- C9: a raising factory propagates its exception, the cache is left
unchanged (nothing is stored for that name), and a subsequent access of
the same name on the same request invokes the factory again with the same
outcome — failures are never memoized. -/
theorem C9_failing_factory_not_cached (reg : Fixtures) (cache : Cache)
    (vargs : List Arg) (vkwargs : Kwargs) (n : String) (f : Factory) (e : PyErr)
    (hn : cache.lookup n = none)
    (hf : reg.get n none = some f)
    (he : f vargs vkwargs = .error e) :
    FixtureAccessor.getattr reg cache vargs vkwargs n = ⟨.error e, cache, 1⟩ ∧
    FixtureAccessor.getattr reg
        ((FixtureAccessor.getattr reg cache vargs vkwargs n).cache) vargs vkwargs n =
      ⟨.error e, cache, 1⟩ := by
  constructor <;> simp [FixtureAccessor.getattr, hn, hf, he]

theorem C9_failing_factory_not_cached_witness :
    FixtureAccessor.getattr ⟨[("u", fun _ _ => Except.error (PyErr.raised "boom"))]⟩
        [] [] [] "u" =
      ⟨.error (PyErr.raised "boom"), [], 1⟩ := by
  exact (C9_failing_factory_not_cached
    ⟨[("u", fun _ _ => Except.error (PyErr.raised "boom"))]⟩ [] [] [] "u"
    (fun _ _ => Except.error (PyErr.raised "boom")) (PyErr.raised "boom")
    rfl rfl rfl).1

/-- C10: both guard decorators call the predicate with the cleaned
argument list but the view (on success) and the response factory (on
failure) with the original one — when a leading non-request argument is
stripped for the predicate, the view and the failure-response factory
still receive it. -/
theorem C10_argument_forwarding (authenticator : Pred)
    (www_authenticate : Option String) (rf : Handler) (view : Handler)
    (condition : Pred) (rf2 : Handler) (a : Arg) (rest : List Arg) (kwargs : Kwargs)
    (ha : isHttpRequest a = false) :
    authWrapper authenticator www_authenticate rf view (a :: rest) kwargs =
      (if authenticator rest kwargs then view (a :: rest) kwargs
       else applyChallenge www_authenticate (rf (a :: rest) kwargs)) ∧
    authorization condition (some rf2) view (a :: rest) kwargs =
      (if condition rest kwargs then view (a :: rest) kwargs
       else rf2 (a :: rest) kwargs) := by
  constructor <;> simp [authWrapper, authorization, cleaned_args, ha]

theorem C10_argument_forwarding_witness :
    authWrapper (fun args _ => decide (args.length = 1)) none unauthorized_response
        (fun args _ => ⟨200, [], args.length⟩) [Arg.value 9, Arg.request 0] [] =
      ⟨200, [], 2⟩ := by
  have h := (C10_argument_forwarding (fun args _ => decide (args.length = 1)) none
    unauthorized_response (fun args _ => ⟨200, [], args.length⟩)
    (fun _ _ => false) unauthorized_response (Arg.value 9) [Arg.request 0] [] rfl).1
  simpa using h

end AuthFunctional
